import Mathlib

/-!
# Sportfy booking front end: submission and status workflows

A shallow embedding of the decision logic of

* `src/components/BookingFormPage.jsx` (`buildDateTime`, `toNumericId`,
  `handleSubmit`, `isFormValid`) and
* `src/components/BookingStatusPage.jsx` (`fetchStatus`),

followed by theorems about it.

JavaScript values are modelled by `JSValue` (the primitive values that JSON
data and component props carry).  Numbers are IEEE 754 doubles: a finite
double is kept as a fraction in lowest terms (its denominator is a power of
two), the two zeros are identified.  Strings are processed as lists of
characters.  Asynchronous calls are modelled by their outcome (`ApiResult`);
every observable action a handler performs is appended to a log of `Effect`s.
-/

namespace Sportfy

/-! ## Numbers -/

/-- A JavaScript Number: not-a-number, the two infinities, or a finite double
`num / den` in lowest terms. -/
inductive JSNumber where
  | nan
  | posInf
  | negInf
  | finite (num : Int) (den : Nat)
  deriving DecidableEq, Repr

/-- The builtin `Number.isFinite` on a number. -/
def JSNumber.isFinite : JSNumber → Bool
  | .finite _ _ => true
  | _ => false

/-- Unary minus. -/
def JSNumber.neg : JSNumber → JSNumber
  | .nan => .nan
  | .posInf => .negInf
  | .negInf => .posInf
  | .finite n d => .finite (-n) d

/-- Truthiness of a number: `0` and `NaN` are falsy. -/
def JSNumber.truthy : JSNumber → Bool
  | .nan => false
  | .finite n _ => n != 0
  | _ => true

/-- Helper of `floorLog2`, recursion on the fuel. -/
def log2Fuel : Nat → Nat → Nat
  | 0, _ => 0
  | fuel + 1, n => if n < 2 then 0 else log2Fuel fuel (n / 2) + 1

/-- The integer part of the binary logarithm of `n` (`0` for `n = 0`). -/
def floorLog2 (n : Nat) : Nat := log2Fuel n n

/-- The fraction `m / 2 ^ s` in lowest terms. -/
def reduceDyadic : Nat → Nat → Nat × Nat
  | m, 0 => (m, 1)
  | m, s + 1 => if m % 2 = 0 then reduceDyadic (m / 2) s else (m, 2 ^ (s + 1))

/-- The integer nearest to `N / D`, ties going to the even neighbour. -/
def roundHalfEven (N D : Nat) : Nat :=
  let q := N / D
  let r := N % D
  if 2 * r < D then q else if D < 2 * r then q + 1 else q + q % 2

/-- The binary exponent of the positive rational `n / d`: the `e` with
`2 ^ e ≤ n / d < 2 ^ (e + 1)`. -/
def binaryExponent (n d : Nat) : Int :=
  let a := floorLog2 n
  let b := floorLog2 d
  if d * 2 ^ a ≤ n * 2 ^ b then (a : Int) - b else (a : Int) - b - 1

/-- The double nearest to `n / d`, given its binary exponent `e`: the
significand is rounded to a multiple of `2 ^ (e - 52)`, of `2 ^ (-1074)` in the
subnormal range, ties going to the even multiple; a result of `2 ^ 1024` or
more is `Infinity`. -/
def roundWithExponent (n d : Nat) (e : Int) : JSNumber :=
  let s : Int := 52 - max e (-1022)
  if 0 < s then
    let m := roundHalfEven (n * 2 ^ s.toNat) d
    let r := reduceDyadic m s.toNat
    .finite r.1 r.2
  else
    let m := roundHalfEven n (d * 2 ^ (-s).toNat)
    let v := m * 2 ^ (-s).toNat
    if 2 ^ 1024 ≤ v then .posInf else .finite v 1

/-- The Number value for the non-negative rational `n / d` (`0 < d`): IEEE 754
binary64 round-to-nearest, ties-to-even, with gradual underflow and overflow
to `Infinity`. -/
def roundToDouble (n d : Nat) : JSNumber :=
  if n = 0 then .finite 0 1 else roundWithExponent n d (binaryExponent n d)

/-! ## Strings -/

/-- The characters `String.prototype.trim` and `Number` strip: ECMAScript
WhiteSpace and LineTerminator code points. -/
def isJSWhiteSpace (c : Char) : Bool :=
  let n := c.toNat
  n = 0x09 || n = 0x0A || n = 0x0B || n = 0x0C || n = 0x0D || n = 0x20 ||
  n = 0xA0 || n = 0x1680 || (0x2000 ≤ n && n ≤ 0x200A) || n = 0x2028 ||
  n = 0x2029 || n = 0x202F || n = 0x205F || n = 0x3000 || n = 0xFEFF

/-- The method `String.prototype.trim`. -/
def jsTrim (s : List Char) : List Char :=
  ((s.dropWhile isJSWhiteSpace).reverse.dropWhile isJSWhiteSpace).reverse

/-- The value of a digit character in a base up to 16 (`none` when the
character is not a digit of that base). -/
def digitValue (base : Nat) (c : Char) : Option Nat :=
  let n := c.toNat
  let v : Option Nat :=
    if 48 ≤ n ∧ n ≤ 57 then some (n - 48)
    else if 97 ≤ n ∧ n ≤ 102 then some (n - 87)
    else if 65 ≤ n ∧ n ≤ 70 then some (n - 55)
    else none
  match v with
  | some k => if k < base then some k else none
  | none => none

/-- The value of a non-empty string of digits of the given base. -/
def digitsValue (base : Nat) : List Char → Nat → Option Nat
  | [], acc => some acc
  | c :: cs, acc =>
    match digitValue base c with
    | some k => digitsValue base cs (acc * base + k)
    | none => none

/-- The mathematical value of a run of decimal digits (`0` for the empty run). -/
def decimalValue (ds : List Char) : Nat :=
  ds.foldl (fun acc c => acc * 10 + (c.toNat - 48)) 0

/-- An integer literal with a radix mark: the digits after `0x`, `0o` or `0b`. -/
def parseRadixLiteral (base : Nat) (ds : List Char) : JSNumber :=
  match ds with
  | [] => .nan
  | _ =>
    match digitsValue base ds 0 with
    | some v => roundToDouble v 1
    | none => .nan

/-- An optional sign in front of a digit run: `(negative, rest)`. -/
def takeSign : List Char → Bool × List Char
  | '-' :: cs => (true, cs)
  | '+' :: cs => (false, cs)
  | cs => (false, cs)

/-- The exponent part of a decimal literal, `none` when malformed: empty, or
`e` or `E`, an optional sign and at least one digit. -/
def parseExponent : List Char → Option Int
  | [] => some 0
  | c :: cs =>
    if c = 'e' ∨ c = 'E' then
      let (negative, ds) := takeSign cs
      if ds ≠ [] ∧ ds.all Char.isDigit then
        some (if negative then -(decimalValue ds : Int) else (decimalValue ds : Int))
      else none
    else none

/-- The grammar StrUnsignedDecimalLiteral without `Infinity`: digits, an
optional fraction, an optional exponent; at least one digit before the
exponent. -/
def parseUnsignedDecimal (s : List Char) : JSNumber :=
  let intDigits := s.takeWhile Char.isDigit
  let afterInt := s.dropWhile Char.isDigit
  let fracDigits :=
    match afterInt with
    | '.' :: r => r.takeWhile Char.isDigit
    | _ => []
  let afterFrac :=
    match afterInt with
    | '.' :: r => r.dropWhile Char.isDigit
    | r => r
  if intDigits = [] ∧ fracDigits = [] then .nan else
  match parseExponent afterFrac with
  | none => .nan
  | some ex =>
    let mantissa := decimalValue (intDigits ++ fracDigits)
    let scale : Int := ex - (fracDigits.length : Int)
    if 0 ≤ scale then roundToDouble (mantissa * 10 ^ scale.toNat) 1
    else roundToDouble mantissa (10 ^ (-scale).toNat)

/-- The grammar StrNumericLiteral on a trimmed, non-empty string. -/
def parseNumericLiteral (s : List Char) : JSNumber :=
  match s with
  | '0' :: 'x' :: ds => parseRadixLiteral 16 ds
  | '0' :: 'X' :: ds => parseRadixLiteral 16 ds
  | '0' :: 'o' :: ds => parseRadixLiteral 8 ds
  | '0' :: 'O' :: ds => parseRadixLiteral 8 ds
  | '0' :: 'b' :: ds => parseRadixLiteral 2 ds
  | '0' :: 'B' :: ds => parseRadixLiteral 2 ds
  | _ =>
    let (negative, body) := takeSign s
    let magnitude :=
      if body = "Infinity".data then JSNumber.posInf else parseUnsignedDecimal body
    if negative then magnitude.neg else magnitude

/-- The abstract operation StringToNumber: what `Number(s)` is for a string. -/
def stringToNumber (s : List Char) : JSNumber :=
  let t := jsTrim s
  if t = [] then .finite 0 1 else parseNumericLiteral t

/-- The first match of the regular expression `/\d+/`: the first maximal run
of ASCII digits, `none` when the string has no digit. -/
def firstDigitRun : List Char → Option (List Char)
  | [] => none
  | c :: cs => if c.isDigit then some (c :: cs.takeWhile Char.isDigit) else firstDigitRun cs

/-! ## Values -/

/-- The JavaScript values the workflow handles: the primitives of JSON data. -/
inductive JSValue where
  | undefined
  | null
  | bool (b : Bool)
  | number (x : JSNumber)
  | string (s : String)
  deriving DecidableEq, Repr

/-- The abstract operation ToBoolean. -/
def JSValue.truthy : JSValue → Bool
  | .undefined => false
  | .null => false
  | .bool b => b
  | .number x => x.truthy
  | .string s => s != ""

/-- The operator `a || b`. -/
def JSValue.or (a b : JSValue) : JSValue := if a.truthy then a else b

/-- The abstract operation ToNumber: `Number(v)`. -/
def JSValue.toNumber : JSValue → JSNumber
  | .undefined => .nan
  | .null => .finite 0 1
  | .bool b => if b then .finite 1 1 else .finite 0 1
  | .number x => x
  | .string s => stringToNumber s.data

/-- What the JavaScript engine and its host decide: the decimal rendering of
a finite number (`Number::toString`), the conversion of a local time value to
UTC, and the implementation-specific parsing of date strings that are not in
the date-time string format. -/
structure Host where
  numberToString : Int → Nat → String
  localToUTC : Int → Int
  dateFallback : List Char → Option Int

/-- The abstract operation ToString: `String(v)`. -/
def JSValue.toStr (host : Host) : JSValue → String
  | .undefined => "undefined"
  | .null => "null"
  | .bool b => if b then "true" else "false"
  | .number .nan => "NaN"
  | .number .posInf => "Infinity"
  | .number .negInf => "-Infinity"
  | .number (.finite n d) => host.numberToString n d
  | .string s => s

/-! ## `toNumericId` (BookingFormPage.jsx, lines 30-39) -/

/-- The function `toNumericId`; `none` is the returned `null`. -/
def toNumericId (host : Host) (value : JSValue) : Option JSNumber :=
  let num := value.toNumber
  if num.isFinite then some num else
  match firstDigitRun ((value.or (.string "")).toStr host).data with
  | some digits =>
    let parsed := stringToNumber digits
    if parsed.isFinite then some parsed else none
  | none => none

/-! ## Dates -/

/-- Gregorian leap years. -/
def isLeapYear (y : Nat) : Bool := (y % 4 = 0 && y % 100 != 0) || y % 400 = 0

/-- The number of days of month `m` (1 to 12) of year `y`, `0` for any other `m`. -/
def daysInMonth (y m : Nat) : Nat :=
  match m with
  | 1 => 31
  | 2 => if isLeapYear y then 29 else 28
  | 3 => 31
  | 4 => 30
  | 5 => 31
  | 6 => 30
  | 7 => 31
  | 8 => 31
  | 9 => 30
  | 10 => 31
  | 11 => 30
  | 12 => 31
  | _ => 0

/-- The days of year `y` that precede its month `m`. -/
def daysBeforeMonth (y : Nat) : Nat → Nat
  | 0 => 0
  | 1 => 0
  | m + 1 => daysBeforeMonth y m + daysInMonth y m

/-- The days from 0000-01-01 to the first of January of year `y`. -/
def daysBeforeYear (y : Nat) : Nat :=
  365 * y + (y + 3) / 4 - (y + 99) / 100 + (y + 399) / 400

/-- The day number of a calendar date, counted from 1970-01-01. -/
def epochDay (y m d : Nat) : Int :=
  ((daysBeforeYear y + daysBeforeMonth y m + (d - 1) : Nat) : Int) - 719528

/-- The local time value, in milliseconds, of a date and a time of day. -/
def localTimeValue (y m d hh mm ss : Nat) : Int :=
  epochDay y m d * 86400000 + ((hh * 3600000 + mm * 60000 + ss * 1000 : Nat) : Int)

/-- The number written by two decimal digits. -/
def twoDigits (a b : Char) : Option Nat :=
  if a.isDigit ∧ b.isDigit then some ((a.toNat - 48) * 10 + (b.toNat - 48)) else none

/-- The number written by four decimal digits. -/
def fourDigits (a b c d : Char) : Option Nat :=
  match twoDigits a b, twoDigits c d with
  | some hi, some lo => some (hi * 100 + lo)
  | _, _ => none

/-- The date-time string format without offset, `YYYY-MM-DDTHH:mm:ss`, with
every element in its legal range: the local time value it denotes.  Any other
string gives `none`. -/
def parseLocalDateTime (s : List Char) : Option Int :=
  match s with
  | [y1, y2, y3, y4, p1, m1, m2, p2, d1, d2, t, h1, h2, q1, n1, n2, q2, s1, s2] =>
    if p1 = '-' ∧ p2 = '-' ∧ t = 'T' ∧ q1 = ':' ∧ q2 = ':' then
      match fourDigits y1 y2 y3 y4, twoDigits m1 m2, twoDigits d1 d2,
          twoDigits h1 h2, twoDigits n1 n2, twoDigits s1 s2 with
      | some y, some m, some d, some hh, some mm, some ss =>
        if 1 ≤ m ∧ m ≤ 12 ∧ 1 ≤ d ∧ d ≤ daysInMonth y m ∧ hh ≤ 23 ∧ mm ≤ 59 ∧ ss ≤ 59 then
          some (localTimeValue y m d hh mm ss)
        else none
      | _, _, _, _, _, _ => none
    else none
  | _ => none

/-- A Date object: its time value in milliseconds since the epoch, `none` for
the time value `NaN` of an invalid date. -/
structure JSDate where
  time : Option Int
  deriving DecidableEq, Repr

/-- The constructor `new Date(string)`: a string in the local date-time format
denotes that local time, any other string is left to the host. -/
def newDate (host : Host) (s : List Char) : JSDate :=
  match parseLocalDateTime s with
  | some t => ⟨some (host.localToUTC t)⟩
  | none => ⟨host.dateFallback s⟩

/-- The method `String.prototype.split` with a one-character separator. -/
def jsSplit (sep : Char) : List Char → List (List Char)
  | [] => [[]]
  | c :: cs =>
    if c = sep then [] :: jsSplit sep cs
    else
      match jsSplit sep cs with
      | p :: ps => (c :: p) :: ps
      | [] => [[c]]

/-- The text a template literal inserts for an array element that may be
`undefined`. -/
def templatePart : Option (List Char) → List Char
  | some s => s
  | none => "undefined".data

/-! ## `buildDateTime` (BookingFormPage.jsx, lines 22-28) -/

/-- The result object `{ start, end }`; `none` is `null`. -/
structure DateRange where
  start : Option JSDate
  end_ : Option JSDate
  deriving DecidableEq, Repr

/-- The function `buildDateTime`; a missing `timeRange` is `none`. -/
def buildDateTime (host : Host) (date : String) (timeRange : Option String) : DateRange :=
  match timeRange with
  | none => ⟨none, none⟩
  | some range =>
    if !range.data.contains '-' then ⟨none, none⟩ else
    let parts := (jsSplit '-' range.data).map jsTrim
    let startStr := templatePart (parts.get? 0)
    let endStr := templatePart (parts.get? 1)
    let start := newDate host (date.data ++ 'T' :: startStr ++ ":00".data)
    let end_ := newDate host (date.data ++ 'T' :: endStr ++ ":00".data)
    ⟨some start, some end_⟩

/-- The start part of a range: its text before the first `-`, trimmed. -/
def rangeStartPart (range : String) : List Char :=
  jsTrim (range.data.takeWhile (fun c => c != '-'))

/-- The end part of a range: its text between the first `-` and the next one
(or the end of the range), trimmed. -/
def rangeEndPart (range : String) : List Char :=
  jsTrim (((range.data.dropWhile (fun c => c != '-')).drop 1).takeWhile (fun c => c != '-'))

/-- The text handed to `new Date` for one part of a range: the date, `T`, the
part and `:00`. -/
def dateTimeText (date : String) (part : List Char) : List Char :=
  date.data ++ 'T' :: part ++ ":00".data

/-! ## Collaborators and effects -/

/-- The component state `formData`. -/
structure FormData where
  name : String
  phone : String
  email : String
  teamName : String
  findOpponent : Bool
  findPlayers : Bool
  deriving DecidableEq, Repr

/-- The fields of the prop `bookingData` the handler reads; a missing `time`
is `none`. -/
structure BookingData where
  courtId : JSValue
  court : JSValue
  date : String
  time : Option String
  deriving DecidableEq, Repr

/-- The identity `getUser()` returns. -/
structure User where
  id : JSValue
  deriving DecidableEq, Repr

/-- A booking record as the server returns it. -/
structure Booking where
  id : JSValue
  status : String
  deriving DecidableEq, Repr

/-- The object a booking call resolves with; a missing `data` is `none`. -/
structure BookingResponse where
  data : Option Booking
  deriving DecidableEq, Repr

/-- The field `data` of the payment payload. -/
structure PaymentData where
  redirectUrl : JSValue
  deriving DecidableEq, Repr

/-- The payment payload; a missing `data` is `none`. -/
structure PaymentPayload where
  data : Option PaymentData
  deriving DecidableEq, Repr

/-- The error a rejected call throws. -/
structure ApiError where
  message : String
  deriving DecidableEq, Repr

/-- The outcome of awaiting `apiClient(...)`. -/
inductive ApiResult (α : Type) where
  | resolved (value : α)
  | rejected (error : ApiError)
  deriving DecidableEq, Repr

/-- The body of the create-booking request; the two times are the time values
that `toISOString()` renders. -/
structure BookingRequest where
  userId : JSNumber
  courtId : JSNumber
  startTime : Int
  endTime : Int
  teamName : String
  findOpponent : Bool
  deriving DecidableEq, Repr

/-- What the collaborators answer during one submission: the session identity
and the outcome of each remote call, should it be issued. -/
structure Collaborators where
  getUser : Option User
  createBooking : ApiResult BookingResponse
  requestPayment : ApiResult (Option PaymentPayload)

/-- The observable actions of the two handlers.  The action `navigate` is the
optional call `onNavigate?.(page, { bookingId })` on the caller's handler. -/
inductive Effect where
  | preventDefault
  | toastError (message : String)
  | toastSuccess (message : String)
  | consoleError (message : String)
  | setIsSubmitting (flag : Bool)
  | setIsLoading (flag : Bool)
  | setBooking (record : Option Booking)
  | apiPost (url : String) (data : Option BookingRequest)
  | apiGet (url : String)
  | storageSet (key : String) (value : String)
  | redirect (url : String)
  | navigate (page : String) (bookingId : JSValue)
  deriving DecidableEq, Repr

/-- The state the form page works on: the flag `isSubmitting`, the persisted
slot `lastBookingId` of `localStorage`, and the log of effects. -/
structure FormPage where
  isSubmitting : Bool
  lastBookingId : Option String
  log : List Effect
  deriving DecidableEq, Repr

/-- Record an effect. -/
def FormPage.emit (p : FormPage) (e : Effect) : FormPage :=
  { p with log := p.log ++ [e] }

/-- The state setter `setIsSubmitting`. -/
def FormPage.setIsSubmitting (p : FormPage) (flag : Bool) : FormPage :=
  { p with isSubmitting := flag, log := p.log ++ [.setIsSubmitting flag] }

/-- The call `localStorage.setItem('lastBookingId', v)`. -/
def FormPage.setLastBookingId (p : FormPage) (v : String) : FormPage :=
  { p with lastBookingId := some v, log := p.log ++ [.storageSet "lastBookingId" v] }

/-- The test `!id` on a result of `toNumericId`: `null` and `0` are falsy. -/
def idTruthy : Option JSNumber → Bool
  | none => false
  | some x => x.truthy

/-- The expression `user?.id`. -/
def userIdOf : Option User → JSValue
  | none => .undefined
  | some u => u.id

/-- The expression `booking?.id`. -/
def bookingIdOf : Option Booking → JSValue
  | none => .undefined
  | some b => b.id

/-- The expression `paymentPayload?.data?.redirectUrl`. -/
def redirectUrlOf : Option PaymentPayload → JSValue
  | some ⟨some d⟩ => d.redirectUrl
  | _ => .undefined

/-- The expression `error.message || fallback`. -/
def messageOr (error : ApiError) (fallback : String) : String :=
  if error.message != "" then error.message else fallback

/-! ## `handleSubmit` (BookingFormPage.jsx, lines 48-116) -/

/-- The body of the `try` block (lines 78-109) once the request is assembled:
the state it reaches and the error it throws, if any. -/
def submitBooking (host : Host) (env : Collaborators) (request : BookingRequest)
    (page : FormPage) : FormPage × Option ApiError :=
  let page := page.emit (.apiPost "/bookings" (some request))
  match env.createBooking with
  | .rejected error => (page, some error)
  | .resolved bookingResponse =>
    let booking := bookingResponse.data
    if !(bookingIdOf booking).truthy then (page, some ⟨"Booking tidak valid"⟩) else
    let id := bookingIdOf booking
    let page := page.setLastBookingId (id.toStr host)
    let page := page.emit (.apiPost ("/payments/booking/" ++ id.toStr host) none)
    match env.requestPayment with
    | .rejected error => (page, some error)
    | .resolved paymentPayload =>
      let redirectUrl := redirectUrlOf paymentPayload
      if redirectUrl.truthy then
        let page := page.emit (.toastSuccess "Mengalihkan ke halaman pembayaran Midtrans...")
        (page.emit (.redirect (redirectUrl.toStr host)), none)
      else
        let page := page.emit
          (.toastError "Gagal mendapatkan halaman pembayaran. Silakan coba lagi.")
        (page.emit (.navigate "booking-status" id), none)

/-- The four guards of `handleSubmit` (lines 51-73), each of the shape
`if (...) { toast.error(message); return; }`: the message of the first guard
that fires, or the request assembled from what the guards computed. -/
def validateSubmission (host : Host) (user : Option User) (bookingData : BookingData)
    (formData : FormData) : Except String BookingRequest :=
  if formData.name = "" ∨ formData.phone = "" then
    .error "Mohon lengkapi data yang wajib diisi (Nama & No. HP)"
  else
  let userId := toNumericId host (userIdOf user)
  if !idTruthy userId then .error "Sesi habis, silakan login kembali." else
  let courtId := toNumericId host (bookingData.courtId.or bookingData.court)
  if !idTruthy courtId then
    .error "Lapangan tidak valid, silakan pilih lapangan dari daftar yang tersedia."
  else
  let range := buildDateTime host bookingData.date bookingData.time
  -- line 70: both dates are objects and neither time value is NaN
  match userId, courtId, range.start, range.end_ with
  | some userId, some courtId, some ⟨some start⟩, some ⟨some end_⟩ =>
    .ok { userId := userId, courtId := courtId, startTime := start, endTime := end_,
          teamName := formData.teamName, findOpponent := formData.findOpponent }
  | _, _, _, _ => .error "Format waktu tidak valid"

/-- The handler `handleSubmit`. -/
def handleSubmit (host : Host) (env : Collaborators) (bookingData : BookingData)
    (formData : FormData) (page : FormPage) : FormPage :=
  let page := page.emit .preventDefault
  match validateSubmission host env.getUser bookingData formData with
  | .error message => page.emit (.toastError message)
  | .ok request =>
    let page := page.setIsSubmitting true
    let (page, thrown) := submitBooking host env request page
    let page :=
      match thrown with
      | some error =>
        (page.emit (.consoleError error.message)).emit (.toastError
          (messageOr error "Terjadi kesalahan jaringan (Pastikan server backend jalan)"))
      | none => page
    page.setIsSubmitting false

/-- The constant `isFormValid` (line 118): both required fields are non-empty
after trimming. -/
def isFormValid (formData : FormData) : Bool :=
  jsTrim formData.name.data != [] && jsTrim formData.phone.data != []

/-- The attribute `disabled` of the submit button (line 181). -/
def submitDisabled (formData : FormData) (page : FormPage) : Bool :=
  !isFormValid formData || page.isSubmitting

/-! ## `fetchStatus` (BookingStatusPage.jsx, lines 31-48) -/

/-- The state the status page works on: the displayed record `booking`, the
flag `isLoading`, the persisted slot `lastBookingId`, and the log of effects. -/
structure StatusPage where
  booking : Option Booking
  isLoading : Bool
  lastBookingId : Option String
  log : List Effect
  deriving DecidableEq, Repr

/-- Record an effect. -/
def StatusPage.emit (p : StatusPage) (e : Effect) : StatusPage :=
  { p with log := p.log ++ [e] }

/-- The state setter `setBooking`. -/
def StatusPage.setBooking (p : StatusPage) (record : Option Booking) : StatusPage :=
  { p with booking := record, log := p.log ++ [.setBooking record] }

/-- The state setter `setIsLoading`. -/
def StatusPage.setIsLoading (p : StatusPage) (flag : Bool) : StatusPage :=
  { p with isLoading := flag, log := p.log ++ [.setIsLoading flag] }

/-- The call `localStorage.setItem('lastBookingId', v)`. -/
def StatusPage.setLastBookingId (p : StatusPage) (v : String) : StatusPage :=
  { p with lastBookingId := some v, log := p.log ++ [.storageSet "lastBookingId" v] }

/-- The function `fetchStatus`; `response` is the outcome of the status call,
should it be issued. -/
def fetchStatus (host : Host) (response : ApiResult BookingResponse) (id : JSValue)
    (page : StatusPage) : StatusPage :=
  if !id.truthy then page.setBooking none else
  let page := page.setIsLoading true
  let page := page.emit (.apiGet ("/bookings/" ++ id.toStr host))
  let page :=
    match response with
    | .resolved r =>
      let page := page.setBooking r.data
      page.setLastBookingId (id.toStr host)
    | .rejected error =>
      let page := page.emit (.consoleError error.message)
      let page := page.emit (.toastError (messageOr error "Gagal mengambil status booking"))
      page.setBooking none
  page.setIsLoading false

/-! ## Reading a log -/

/-- The remote calls a log records. -/
def remoteCalls (log : List Effect) : List Effect :=
  log.filter fun e =>
    match e with
    | .apiPost _ _ => true
    | .apiGet _ => true
    | _ => false

/-- The navigation signals `(page, bookingId)` a log records. -/
def navigations : List Effect → List (String × JSValue)
  | [] => []
  | .navigate page id :: rest => (page, id) :: navigations rest
  | _ :: rest => navigations rest

/-- The external redirects a log records. -/
def redirects : List Effect → List String
  | [] => []
  | .redirect url :: rest => url :: redirects rest
  | _ :: rest => redirects rest

/-- The writes to `localStorage` a log records. -/
def storageWrites : List Effect → List (String × String)
  | [] => []
  | .storageSet key value :: rest => (key, value) :: storageWrites rest
  | _ :: rest => storageWrites rest

/-- The error messages a log reports to the user. -/
def errorsReported : List Effect → List String
  | [] => []
  | .toastError message :: rest => message :: errorsReported rest
  | _ :: rest => errorsReported rest

/-! ## Writing dates and time ranges -/

/-- The decimal digit `k` as a character. -/
def digitChar (k : Nat) : Char := Char.ofNat (48 + k)

/-- A number below 100 written with two digits. -/
def pad2 (n : Nat) : List Char := [digitChar (n / 10), digitChar (n % 10)]

/-- The calendar date `YYYY-MM-DD`. -/
def isoDate (y m d : Nat) : String :=
  String.mk (pad2 (y / 100) ++ pad2 (y % 100) ++ '-' :: pad2 m ++ '-' :: pad2 d)

/-- The time range `HH:MM-HH:MM`. -/
def timeRangeString (h1 m1 h2 m2 : Nat) : String :=
  String.mk (pad2 h1 ++ ':' :: pad2 m1 ++ '-' :: pad2 h2 ++ ':' :: pad2 m2)

/-! ## A host for the examples -/

/-- A host in the UTC time zone that knows no date format beyond the standard
one; integers are rendered in decimal (the examples render no other number). -/
def utcHost : Host where
  numberToString := fun n _ => toString n
  localToUTC := fun t => t
  dateFallback := fun _ => none

/-- A filled-in form. -/
def exampleForm : FormData :=
  { name := "Budi", phone := "0812345678", email := "", teamName := "Garuda FC",
    findOpponent := true, findPlayers := false }

/-- A slot picked from the schedule: court 3 on 2025-03-10, 09:00 to 10:30. -/
def exampleSlot : BookingData :=
  { courtId := .string "court-3", court := .undefined, date := "2025-03-10",
    time := some "09:00-10:30" }

/-- The signed-in user 7. -/
def exampleUser : User := { id := .number (.finite 7 1) }

/-- The request the example form and slot assemble. -/
def exampleRequest : BookingRequest :=
  { userId := .finite 7 1, courtId := .finite 3 1, startTime := 1741597200000,
    endTime := 1741602600000, teamName := "Garuda FC", findOpponent := true }

/-- A form page at rest whose store remembers an older booking. -/
def examplePage : FormPage := { isSubmitting := false, lastBookingId := some "bk-9", log := [] }

/-- The booking the server creates in the examples. -/
def exampleBooking : Booking := { id := .string "bk-17", status := "PENDING" }


/-! ## Reading a log: composition -/

theorem navigations_append (a b : List Effect) :
    navigations (a ++ b) = navigations a ++ navigations b := by
  induction a with
  | nil => rfl
  | cons e rest ih => cases e <;> simp [navigations, ih]

theorem redirects_append (a b : List Effect) :
    redirects (a ++ b) = redirects a ++ redirects b := by
  induction a with
  | nil => rfl
  | cons e rest ih => cases e <;> simp [redirects, ih]

theorem storageWrites_append (a b : List Effect) :
    storageWrites (a ++ b) = storageWrites a ++ storageWrites b := by
  induction a with
  | nil => rfl
  | cons e rest ih => cases e <;> simp [storageWrites, ih]

theorem errorsReported_append (a b : List Effect) :
    errorsReported (a ++ b) = errorsReported a ++ errorsReported b := by
  induction a with
  | nil => rfl
  | cons e rest ih => cases e <;> simp [errorsReported, ih]

theorem remoteCalls_append (a b : List Effect) :
    remoteCalls (a ++ b) = remoteCalls a ++ remoteCalls b := by
  simp [remoteCalls]

/-! ## The status workflow -/

/-- C10. For every truthy (non-empty) identifier and every prior state, a
`fetchStatus` whose remote call is rejected leaves the persisted slot
`lastBookingId` at its prior value (it writes nothing to the store), sets the
displayed record to `null`, reports the error and ends with the loading flag
false. -/
theorem fetchStatus_failure_keeps_reference (host : Host) (error : ApiError) (id : JSValue)
    (page : StatusPage) (hid : id.truthy = true) :
    (fetchStatus host (.rejected error) id page).lastBookingId = page.lastBookingId ∧
    (fetchStatus host (.rejected error) id page).booking = none ∧
    (fetchStatus host (.rejected error) id page).isLoading = false ∧
    (fetchStatus host (.rejected error) id page).log = page.log ++
      [.setIsLoading true, .apiGet ("/bookings/" ++ id.toStr host),
       .consoleError error.message,
       .toastError (messageOr error "Gagal mengambil status booking"),
       .setBooking none, .setIsLoading false] := by
  simp [fetchStatus, hid, StatusPage.setIsLoading, StatusPage.emit, StatusPage.setBooking]

theorem fetchStatus_failure_keeps_reference_witness :
    (JSValue.string "bk-17").truthy = true ∧
    (fetchStatus utcHost (.rejected ⟨"Booking not found"⟩) (.string "bk-17")
      ⟨some ⟨.string "bk-9", "PAID"⟩, false, some "bk-9", []⟩).lastBookingId = some "bk-9" ∧
    (fetchStatus utcHost (.rejected ⟨"Booking not found"⟩) (.string "bk-17")
      ⟨some ⟨.string "bk-9", "PAID"⟩, false, some "bk-9", []⟩).booking = none :=
  ⟨by decide,
   (fetchStatus_failure_keeps_reference utcHost ⟨"Booking not found"⟩ (.string "bk-17")
      ⟨some ⟨.string "bk-9", "PAID"⟩, false, some "bk-9", []⟩ (by decide)).1,
   (fetchStatus_failure_keeps_reference utcHost ⟨"Booking not found"⟩ (.string "bk-17")
      ⟨some ⟨.string "bk-9", "PAID"⟩, false, some "bk-9", []⟩ (by decide)).2.1⟩


/-! ## The submission workflow -/

theorem toNumericId_undefined (host : Host) : toNumericId host .undefined = none := by
  simp [toNumericId, JSValue.toNumber, JSNumber.isFinite, JSValue.or, JSValue.truthy,
    JSValue.toStr, firstDigitRun]

theorem handleSubmit_of_invalid (host : Host) (env : Collaborators) (bookingData : BookingData)
    (formData : FormData) (page : FormPage) (message : String)
    (h : validateSubmission host env.getUser bookingData formData = .error message) :
    handleSubmit host env bookingData formData page =
      (page.emit .preventDefault).emit (.toastError message) := by
  simp [handleSubmit, h]

/-- C2. For every submission that passes the guards, in which create-booking
resolves with a booking whose id `b` is usable (truthy) and the payment call
resolves without a redirect target: afterwards the persisted slot
`lastBookingId` holds `b` (as the string `localStorage` stores), exactly one
navigation was signaled, to `booking-status` with `bookingId = b`, no external
redirect was performed, and the slot was written once. -/
theorem handleSubmit_no_redirect_goes_to_status (host : Host) (env : Collaborators)
    (bookingData : BookingData) (formData : FormData) (page : FormPage)
    (request : BookingRequest) (booking : Booking) (payload : Option PaymentPayload)
    (hvalid : validateSubmission host env.getUser bookingData formData = .ok request)
    (hcreate : env.createBooking = .resolved ⟨some booking⟩)
    (hid : booking.id.truthy = true)
    (hpay : env.requestPayment = .resolved payload)
    (hurl : (redirectUrlOf payload).truthy = false) :
    (handleSubmit host env bookingData formData page).lastBookingId
      = some (booking.id.toStr host) ∧
    navigations (handleSubmit host env bookingData formData page).log
      = navigations page.log ++ [("booking-status", booking.id)] ∧
    redirects (handleSubmit host env bookingData formData page).log = redirects page.log ∧
    storageWrites (handleSubmit host env bookingData formData page).log
      = storageWrites page.log ++ [("lastBookingId", booking.id.toStr host)] ∧
    (handleSubmit host env bookingData formData page).log = page.log ++
      [.preventDefault, .setIsSubmitting true, .apiPost "/bookings" (some request),
       .storageSet "lastBookingId" (booking.id.toStr host),
       .apiPost ("/payments/booking/" ++ booking.id.toStr host) none,
       .toastError "Gagal mendapatkan halaman pembayaran. Silakan coba lagi.",
       .navigate "booking-status" booking.id, .setIsSubmitting false] := by
  have hlog : (handleSubmit host env bookingData formData page).log = page.log ++
      [.preventDefault, .setIsSubmitting true, .apiPost "/bookings" (some request),
       .storageSet "lastBookingId" (booking.id.toStr host),
       .apiPost ("/payments/booking/" ++ booking.id.toStr host) none,
       .toastError "Gagal mendapatkan halaman pembayaran. Silakan coba lagi.",
       .navigate "booking-status" booking.id, .setIsSubmitting false] := by
    simp [handleSubmit, hvalid, submitBooking, hcreate, hpay, hurl, hid, bookingIdOf,
      FormPage.emit, FormPage.setIsSubmitting, FormPage.setLastBookingId]
  refine ⟨?_, ?_, ?_, ?_, hlog⟩
  · simp [handleSubmit, hvalid, submitBooking, hcreate, hpay, hurl, hid, bookingIdOf,
      FormPage.emit, FormPage.setIsSubmitting, FormPage.setLastBookingId]
  · rw [hlog, navigations_append]; rfl
  · rw [hlog, redirects_append]; simp [redirects]
  · rw [hlog, storageWrites_append]; rfl

/-- C3. For every submission that passes the guards and whose create-booking
call is rejected or resolves with a record without a usable id: an error is
reported and nothing else happens; the persisted slot `lastBookingId` keeps
its prior value and is not written, the create call is the only remote call
(no payment call), and no navigation or redirect is signaled. -/
theorem handleSubmit_create_failure_writes_nothing (host : Host) (env : Collaborators)
    (bookingData : BookingData) (formData : FormData) (page : FormPage)
    (request : BookingRequest)
    (hvalid : validateSubmission host env.getUser bookingData formData = .ok request)
    (hcreate : (∃ error, env.createBooking = .rejected error) ∨
      (∃ response, env.createBooking = .resolved response ∧
        (bookingIdOf response.data).truthy = false)) :
    (handleSubmit host env bookingData formData page).lastBookingId = page.lastBookingId ∧
    storageWrites (handleSubmit host env bookingData formData page).log
      = storageWrites page.log ∧
    remoteCalls (handleSubmit host env bookingData formData page).log
      = remoteCalls page.log ++ [.apiPost "/bookings" (some request)] ∧
    navigations (handleSubmit host env bookingData formData page).log
      = navigations page.log ∧
    redirects (handleSubmit host env bookingData formData page).log = redirects page.log ∧
    (∃ message, errorsReported (handleSubmit host env bookingData formData page).log
      = errorsReported page.log ++ [message]) ∧
    (handleSubmit host env bookingData formData page).isSubmitting = false := by
  rcases hcreate with ⟨error, herr⟩ | ⟨response, hres, hbad⟩
  · have hlog : (handleSubmit host env bookingData formData page).log = page.log ++
        [.preventDefault, .setIsSubmitting true, .apiPost "/bookings" (some request),
         .consoleError error.message,
         .toastError (messageOr error
           "Terjadi kesalahan jaringan (Pastikan server backend jalan)"),
         .setIsSubmitting false] := by
      simp [handleSubmit, hvalid, submitBooking, herr, FormPage.emit,
        FormPage.setIsSubmitting]
    refine ⟨?_, ?_, ?_, ?_, ?_, ⟨messageOr error
      "Terjadi kesalahan jaringan (Pastikan server backend jalan)", ?_⟩, ?_⟩
    · simp [handleSubmit, hvalid, submitBooking, herr, FormPage.emit,
        FormPage.setIsSubmitting]
    · rw [hlog, storageWrites_append]; simp [storageWrites]
    · rw [hlog, remoteCalls_append]; simp [remoteCalls]
    · rw [hlog, navigations_append]; simp [navigations]
    · rw [hlog, redirects_append]; simp [redirects]
    · rw [hlog, errorsReported_append]; rfl
    · simp [handleSubmit, hvalid, submitBooking, herr, FormPage.emit,
        FormPage.setIsSubmitting]
  · have hlog : (handleSubmit host env bookingData formData page).log = page.log ++
        [.preventDefault, .setIsSubmitting true, .apiPost "/bookings" (some request),
         .consoleError "Booking tidak valid", .toastError "Booking tidak valid",
         .setIsSubmitting false] := by
      simp [handleSubmit, hvalid, submitBooking, hres, hbad, FormPage.emit,
        FormPage.setIsSubmitting, messageOr]
    refine ⟨?_, ?_, ?_, ?_, ?_, ⟨"Booking tidak valid", ?_⟩, ?_⟩
    · simp [handleSubmit, hvalid, submitBooking, hres, hbad, FormPage.emit,
        FormPage.setIsSubmitting]
    · rw [hlog, storageWrites_append]; simp [storageWrites]
    · rw [hlog, remoteCalls_append]; simp [remoteCalls]
    · rw [hlog, navigations_append]; simp [navigations]
    · rw [hlog, redirects_append]; simp [redirects]
    · rw [hlog, errorsReported_append]; rfl
    · simp [handleSubmit, hvalid, submitBooking, hres, hbad, FormPage.emit,
        FormPage.setIsSubmitting]


set_option maxRecDepth 100000 in
theorem handleSubmit_no_redirect_goes_to_status_witness :
    (handleSubmit utcHost ⟨some exampleUser, .resolved ⟨some exampleBooking⟩, .resolved none⟩
      exampleSlot exampleForm examplePage).lastBookingId = some "bk-17" ∧
    navigations (handleSubmit utcHost
      ⟨some exampleUser, .resolved ⟨some exampleBooking⟩, .resolved none⟩
      exampleSlot exampleForm examplePage).log = [("booking-status", .string "bk-17")] :=
  ⟨(handleSubmit_no_redirect_goes_to_status utcHost
      ⟨some exampleUser, .resolved ⟨some exampleBooking⟩, .resolved none⟩
      exampleSlot exampleForm examplePage exampleRequest exampleBooking none
      rfl rfl (by decide) rfl (by decide)).1,
   (handleSubmit_no_redirect_goes_to_status utcHost
      ⟨some exampleUser, .resolved ⟨some exampleBooking⟩, .resolved none⟩
      exampleSlot exampleForm examplePage exampleRequest exampleBooking none
      rfl rfl (by decide) rfl (by decide)).2.1⟩

set_option maxRecDepth 100000 in
theorem handleSubmit_create_failure_writes_nothing_witness :
    (handleSubmit utcHost ⟨some exampleUser, .rejected ⟨"Slot sudah dipesan"⟩, .resolved none⟩
      exampleSlot exampleForm examplePage).lastBookingId = some "bk-9" ∧
    remoteCalls (handleSubmit utcHost
      ⟨some exampleUser, .rejected ⟨"Slot sudah dipesan"⟩, .resolved none⟩
      exampleSlot exampleForm examplePage).log = [.apiPost "/bookings" (some exampleRequest)] :=
  ⟨(handleSubmit_create_failure_writes_nothing utcHost
      ⟨some exampleUser, .rejected ⟨"Slot sudah dipesan"⟩, .resolved none⟩
      exampleSlot exampleForm examplePage exampleRequest rfl
      (Or.inl ⟨_, rfl⟩)).1,
   (handleSubmit_create_failure_writes_nothing utcHost
      ⟨some exampleUser, .rejected ⟨"Slot sudah dipesan"⟩, .resolved none⟩
      exampleSlot exampleForm examplePage exampleRequest rfl
      (Or.inl ⟨_, rfl⟩)).2.2.1⟩

set_option maxRecDepth 100000 in
/-- C1. The code at a submission whose create-booking call resolves with the
usable id `bk-17` and whose payment call is rejected: the error is reported and
the store holds `bk-17`, but `onNavigate` is not invoked; the handler ends on
the form with no navigation signaled. -/
theorem handleSubmit_payment_failure_no_navigation :
    handleSubmit utcHost
      ⟨some exampleUser, .resolved ⟨some exampleBooking⟩, .rejected ⟨"Network Error"⟩⟩
      exampleSlot exampleForm examplePage =
      { isSubmitting := false, lastBookingId := some "bk-17",
        log := [.preventDefault, .setIsSubmitting true,
          .apiPost "/bookings" (some exampleRequest),
          .storageSet "lastBookingId" "bk-17",
          .apiPost "/payments/booking/bk-17" none,
          .consoleError "Network Error", .toastError "Network Error",
          .setIsSubmitting false] } ∧
    navigations (handleSubmit utcHost
      ⟨some exampleUser, .resolved ⟨some exampleBooking⟩, .rejected ⟨"Network Error"⟩⟩
      exampleSlot exampleForm examplePage).log = [] := by
  decide


theorem validateSubmission_range (host : Host) (user : Option User)
    (bookingData : BookingData) (formData : FormData) (request : BookingRequest)
    (h : validateSubmission host user bookingData formData = .ok request) :
    buildDateTime host bookingData.date bookingData.time =
      ⟨some ⟨some request.startTime⟩, some ⟨some request.endTime⟩⟩ := by
  unfold validateSubmission at h
  split at h
  · cases h
  · dsimp only at h
    split at h
    · cases h
    · split at h
      · cases h
      · split at h
        · next u c st en hu hc hs he =>
          cases h
          cases hr : buildDateTime host bookingData.date bookingData.time with
          | mk s e =>
            rw [hr] at hs he
            simp only at hs he
            simp [hs, he]
        · cases h

theorem handleSubmit_invalid_calls (host : Host) (env : Collaborators)
    (bookingData : BookingData) (formData : FormData) (page : FormPage) (message : String)
    (h : validateSubmission host env.getUser bookingData formData = .error message) :
    remoteCalls (handleSubmit host env bookingData formData page).log
      = remoteCalls page.log := by
  rw [handleSubmit_of_invalid host env bookingData formData page message h]
  simp [FormPage.emit, remoteCalls]

/-- C4, as amended. For every form input whose name or phone is empty after
trimming (whitespace-only values included) `isFormValid` is false, so the
submit button is disabled; and when the name or the phone is the empty string,
`handleSubmit` reports the missing-required-fields error and does nothing
else: it issues no remote call. -/
theorem required_fields_gate (host : Host) (env : Collaborators) (bookingData : BookingData)
    (formData : FormData) (page : FormPage)
    (h : jsTrim formData.name.data = [] ∨ jsTrim formData.phone.data = []) :
    isFormValid formData = false ∧ submitDisabled formData page = true ∧
    ((formData.name = "" ∨ formData.phone = "") →
      handleSubmit host env bookingData formData page =
        (page.emit .preventDefault).emit
          (.toastError "Mohon lengkapi data yang wajib diisi (Nama & No. HP)") ∧
      remoteCalls (handleSubmit host env bookingData formData page).log
        = remoteCalls page.log) := by
  have hvalid : isFormValid formData = false := by
    rcases h with h | h <;> simp [isFormValid, h]
  refine ⟨hvalid, by simp [submitDisabled, hvalid], fun hempty => ?_⟩
  have hv : validateSubmission host env.getUser bookingData formData =
      .error "Mohon lengkapi data yang wajib diisi (Nama & No. HP)" := by
    simp [validateSubmission, hempty]
  exact ⟨handleSubmit_of_invalid _ _ _ _ _ _ hv, handleSubmit_invalid_calls _ _ _ _ _ _ hv⟩

set_option maxRecDepth 100000 in
theorem required_fields_gate_witness :
    isFormValid { exampleForm with name := "" } = false ∧
    remoteCalls (handleSubmit utcHost
      ⟨some exampleUser, .resolved ⟨some exampleBooking⟩, .resolved none⟩ exampleSlot
      { exampleForm with name := "" } examplePage).log = [] :=
  ⟨(required_fields_gate utcHost
      ⟨some exampleUser, .resolved ⟨some exampleBooking⟩, .resolved none⟩ exampleSlot
      { exampleForm with name := "" } examplePage (Or.inl (by decide))).1,
   ((required_fields_gate utcHost
      ⟨some exampleUser, .resolved ⟨some exampleBooking⟩, .resolved none⟩ exampleSlot
      { exampleForm with name := "" } examplePage (Or.inl (by decide))).2.2
      (Or.inl rfl)).2⟩

set_option maxRecDepth 100000 in
/-- C4, counterexample. The name `"   "` is empty after trimming, yet
`handleSubmit` reports no error for it and issues both remote calls. -/
theorem handleSubmit_whitespace_name_submits :
    jsTrim ({ exampleForm with name := "   " } : FormData).name.data = [] ∧
    handleSubmit utcHost
      ⟨some exampleUser, .resolved ⟨some exampleBooking⟩,
        .resolved (some ⟨some ⟨.string "https://pay.example/bk-17"⟩⟩)⟩
      exampleSlot { exampleForm with name := "   " } examplePage =
      { isSubmitting := false, lastBookingId := some "bk-17",
        log := [.preventDefault, .setIsSubmitting true,
          .apiPost "/bookings" (some exampleRequest),
          .storageSet "lastBookingId" "bk-17",
          .apiPost "/payments/booking/bk-17" none,
          .toastSuccess "Mengalihkan ke halaman pembayaran Midtrans...",
          .redirect "https://pay.example/bk-17",
          .setIsSubmitting false] } := by
  decide

/-- C5. For every submission that passes the required-field check, if
`getUser()` returns no identity or an identity whose id `toNumericId` cannot
resolve, `handleSubmit` reports the session-expired message and does nothing
else: no remote call is issued and the persisted slot is not written. -/
theorem handleSubmit_session_expired (host : Host) (env : Collaborators)
    (bookingData : BookingData) (formData : FormData) (page : FormPage)
    (hname : formData.name ≠ "") (hphone : formData.phone ≠ "")
    (huser : env.getUser = none ∨ toNumericId host (userIdOf env.getUser) = none) :
    handleSubmit host env bookingData formData page =
      (page.emit .preventDefault).emit (.toastError "Sesi habis, silakan login kembali.") ∧
    remoteCalls (handleSubmit host env bookingData formData page).log
      = remoteCalls page.log ∧
    storageWrites (handleSubmit host env bookingData formData page).log
      = storageWrites page.log ∧
    (handleSubmit host env bookingData formData page).lastBookingId
      = page.lastBookingId := by
  have hnone : toNumericId host (userIdOf env.getUser) = none := by
    rcases huser with h | h
    · rw [h]; exact toNumericId_undefined host
    · exact h
  have hv : validateSubmission host env.getUser bookingData formData =
      .error "Sesi habis, silakan login kembali." := by
    simp [validateSubmission, hname, hphone, hnone, idTruthy]
  have hq := handleSubmit_of_invalid host env bookingData formData page _ hv
  refine ⟨hq, handleSubmit_invalid_calls _ _ _ _ _ _ hv, ?_, ?_⟩
  · rw [hq]; simp [FormPage.emit, storageWrites_append, storageWrites]
  · rw [hq]; rfl

set_option maxRecDepth 100000 in
theorem handleSubmit_session_expired_witness :
    exampleForm.name ≠ "" ∧ exampleForm.phone ≠ "" ∧
    toNumericId utcHost (userIdOf (some ⟨.string "guest"⟩)) = none ∧
    errorsReported (handleSubmit utcHost
      ⟨some ⟨.string "guest"⟩, .resolved ⟨some exampleBooking⟩, .resolved none⟩
      exampleSlot exampleForm examplePage).log = ["Sesi habis, silakan login kembali."] :=
  ⟨by decide, by decide, by decide,
   congrArg (fun p => errorsReported p.log)
    (handleSubmit_session_expired utcHost
      ⟨some ⟨.string "guest"⟩, .resolved ⟨some exampleBooking⟩, .resolved none⟩
      exampleSlot exampleForm examplePage (by decide) (by decide) (Or.inr (by decide))).1⟩

theorem jsSplit_parts (sep : Char) (s : List Char) :
    jsSplit sep s = s.takeWhile (fun c => c != sep) ::
      (match s.dropWhile (fun c => c != sep) with
        | [] => []
        | _ :: rest => jsSplit sep rest) := by
  induction s with
  | nil => rfl
  | cons c cs ih =>
    by_cases hc : c = sep
    · simp [jsSplit, hc, List.takeWhile, List.dropWhile]
    · rw [jsSplit, if_neg hc, ih]
      simp [List.takeWhile_cons, List.dropWhile_cons, hc]

theorem jsSplit_second (sep : Char) (s : List Char) (h : s.contains sep = true) :
    ∃ rest, jsSplit sep s = s.takeWhile (fun c => c != sep) ::
      ((s.dropWhile (fun c => c != sep)).drop 1).takeWhile (fun c => c != sep) :: rest := by
  have hmem : sep ∈ s := by simpa using h
  have hdrop : s.dropWhile (fun c => c != sep) ≠ [] := by
    intro hnil
    have := List.dropWhile_eq_nil_iff.1 hnil sep hmem
    simp at this
  rw [jsSplit_parts sep s]
  cases hd : s.dropWhile (fun c => c != sep) with
  | nil => exact absurd hd hdrop
  | cons x rest =>
    simp only [List.drop_succ_cons, List.drop_zero]
    rw [jsSplit_parts sep rest]
    exact ⟨_, rfl⟩

theorem buildDateTime_of_separator (host : Host) (date range : String)
    (h : range.data.contains '-' = true) :
    buildDateTime host date (some range) =
      ⟨some (newDate host (dateTimeText date (rangeStartPart range))),
       some (newDate host (dateTimeText date (rangeEndPart range)))⟩ := by
  obtain ⟨rest, hsplit⟩ := jsSplit_second '-' range.data h
  have hmem : '-' ∈ range.data := by simpa using h
  simp [buildDateTime, hmem, hsplit, templatePart, dateTimeText, rangeStartPart, rangeEndPart]

/-- C7, as amended. For every booking context whose time range is missing,
has no `-`, or whose start or end part, put together with the date, is an
invalid Date: the build yields no pair of valid dates and `handleSubmit` issues
no remote call; a missing range or one without `-` is rejected with `null` for
both ends, no Date being constructed; and when the submission passes the
required-field, session and court guards, `handleSubmit` reports the
invalid-time-format error and does nothing else. -/
theorem handleSubmit_bad_time_range (host : Host) (env : Collaborators)
    (bookingData : BookingData) (formData : FormData) (page : FormPage)
    (hbad : bookingData.time = none ∨
      ∃ range, bookingData.time = some range ∧
        (range.data.contains '-' = false ∨
         newDate host (dateTimeText bookingData.date (rangeStartPart range)) = ⟨none⟩ ∨
         newDate host (dateTimeText bookingData.date (rangeEndPart range)) = ⟨none⟩)) :
    (¬ ∃ start end_, buildDateTime host bookingData.date bookingData.time =
      ⟨some ⟨some start⟩, some ⟨some end_⟩⟩) ∧
    ((bookingData.time = none ∨
      ∃ range, bookingData.time = some range ∧ range.data.contains '-' = false) →
      buildDateTime host bookingData.date bookingData.time = ⟨none, none⟩) ∧
    remoteCalls (handleSubmit host env bookingData formData page).log
      = remoteCalls page.log ∧
    (formData.name ≠ "" → formData.phone ≠ "" →
      idTruthy (toNumericId host (userIdOf env.getUser)) = true →
      idTruthy (toNumericId host (bookingData.courtId.or bookingData.court)) = true →
      handleSubmit host env bookingData formData page =
        (page.emit .preventDefault).emit (.toastError "Format waktu tidak valid")) := by
  have hnull : (bookingData.time = none ∨
      ∃ range, bookingData.time = some range ∧ range.data.contains '-' = false) →
      buildDateTime host bookingData.date bookingData.time = ⟨none, none⟩ := by
    rintro (h | ⟨range, h, hsep⟩)
    · simp [buildDateTime, h]
    · simp [buildDateTime, h]
      simpa using hsep
  have hfail : ¬ ∃ start end_, buildDateTime host bookingData.date bookingData.time =
      ⟨some ⟨some start⟩, some ⟨some end_⟩⟩ := by
    rintro ⟨start, end_, hr⟩
    rcases hbad with h | ⟨range, h, hcase⟩
    · rw [hnull (Or.inl h)] at hr; cases hr
    · cases hsep : range.data.contains '-'
      · rw [hnull (Or.inr ⟨range, h, hsep⟩)] at hr; cases hr
      · rw [h, buildDateTime_of_separator host _ range hsep] at hr
        have hstart := congrArg DateRange.start hr
        have hend := congrArg DateRange.end_ hr
        simp only at hstart hend
        rcases hcase with hc | hc | hc
        · rw [hsep] at hc; cases hc
        · rw [hc] at hstart; cases hstart
        · rw [hc] at hend; cases hend
  refine ⟨hfail, hnull, ?_, ?_⟩
  · cases hv : validateSubmission host env.getUser bookingData formData with
    | error message => exact handleSubmit_invalid_calls _ _ _ _ _ _ hv
    | ok request => exact absurd ⟨_, _, validateSubmission_range _ _ _ _ _ hv⟩ hfail
  · intro hname hphone huser hcourt
    apply handleSubmit_of_invalid
    unfold validateSubmission
    simp only [hname, hphone, huser, hcourt, or_self, if_false, Bool.not_true]
    split
    · cases ‹false = true›
    · split
      · next u c st en hu hc hs he =>
        exact absurd ⟨st, en, by
          cases hr : buildDateTime host bookingData.date bookingData.time with
          | mk s e => rw [hr] at hs he; simp only at hs he; rw [hs, he]⟩ hfail
      · rfl

set_option maxRecDepth 100000 in
theorem handleSubmit_bad_time_range_witness :
    buildDateTime utcHost "2025-03-10" (some "0900 1030") = ⟨none, none⟩ ∧
    handleSubmit utcHost ⟨some exampleUser, .resolved ⟨some exampleBooking⟩, .resolved none⟩
      { exampleSlot with time := some "0900 1030" } exampleForm examplePage =
      (examplePage.emit .preventDefault).emit (.toastError "Format waktu tidak valid") ∧
    newDate utcHost (dateTimeText "2025-03-10" (rangeEndPart "09:00-25:00")) = ⟨none⟩ ∧
    handleSubmit utcHost ⟨some exampleUser, .resolved ⟨some exampleBooking⟩, .resolved none⟩
      { exampleSlot with time := some "09:00-25:00" } exampleForm examplePage =
      (examplePage.emit .preventDefault).emit (.toastError "Format waktu tidak valid") ∧
    newDate utcHost (dateTimeText "2025-03-10" (rangeStartPart "9 pagi-10:30")) = ⟨none⟩ ∧
    handleSubmit utcHost ⟨some exampleUser, .resolved ⟨some exampleBooking⟩, .resolved none⟩
      { exampleSlot with time := some "9 pagi-10:30" } exampleForm examplePage =
      (examplePage.emit .preventDefault).emit (.toastError "Format waktu tidak valid") ∧
    handleSubmit utcHost ⟨some exampleUser, .resolved ⟨some exampleBooking⟩, .resolved none⟩
      { exampleSlot with time := none } exampleForm examplePage =
      (examplePage.emit .preventDefault).emit (.toastError "Format waktu tidak valid") :=
  ⟨(handleSubmit_bad_time_range utcHost
      ⟨some exampleUser, .resolved ⟨some exampleBooking⟩, .resolved none⟩
      { exampleSlot with time := some "0900 1030" } exampleForm examplePage
      (Or.inr ⟨_, rfl, Or.inl (by decide)⟩)).2.1 (Or.inr ⟨_, rfl, by decide⟩),
   (handleSubmit_bad_time_range utcHost
      ⟨some exampleUser, .resolved ⟨some exampleBooking⟩, .resolved none⟩
      { exampleSlot with time := some "0900 1030" } exampleForm examplePage
      (Or.inr ⟨_, rfl, Or.inl (by decide)⟩)).2.2.2
      (by decide) (by decide) (by decide) (by decide),
   by decide,
   (handleSubmit_bad_time_range utcHost
      ⟨some exampleUser, .resolved ⟨some exampleBooking⟩, .resolved none⟩
      { exampleSlot with time := some "09:00-25:00" } exampleForm examplePage
      (Or.inr ⟨_, rfl, Or.inr (Or.inr (by decide))⟩)).2.2.2
      (by decide) (by decide) (by decide) (by decide),
   by decide,
   (handleSubmit_bad_time_range utcHost
      ⟨some exampleUser, .resolved ⟨some exampleBooking⟩, .resolved none⟩
      { exampleSlot with time := some "9 pagi-10:30" } exampleForm examplePage
      (Or.inr ⟨_, rfl, Or.inr (Or.inl (by decide))⟩)).2.2.2
      (by decide) (by decide) (by decide) (by decide),
   (handleSubmit_bad_time_range utcHost
      ⟨some exampleUser, .resolved ⟨some exampleBooking⟩, .resolved none⟩
      { exampleSlot with time := none } exampleForm examplePage (Or.inl rfl)).2.2.2
      (by decide) (by decide) (by decide) (by decide)⟩

set_option maxRecDepth 100000 in
/-- C7, counterexample. With the time range missing and the name empty,
`handleSubmit` reports the missing-required-fields error, not the
invalid-time-format error; with the time range missing and no user signed in,
it reports the session-expired error. -/
theorem handleSubmit_bad_time_range_other_error :
    ({ exampleSlot with time := none } : BookingData).time = none ∧
    errorsReported (handleSubmit utcHost
      ⟨some exampleUser, .resolved ⟨some exampleBooking⟩, .resolved none⟩
      { exampleSlot with time := none } { exampleForm with name := "" } examplePage).log
      = ["Mohon lengkapi data yang wajib diisi (Nama & No. HP)"] ∧
    errorsReported (handleSubmit utcHost
      ⟨none, .resolved ⟨some exampleBooking⟩, .resolved none⟩
      { exampleSlot with time := none } exampleForm examplePage).log
      = ["Sesi habis, silakan login kembali."] ∧
    "Mohon lengkapi data yang wajib diisi (Nama & No. HP)" ≠ "Format waktu tidak valid" ∧
    "Sesi habis, silakan login kembali." ≠ "Format waktu tidak valid" := by
  decide


/-! ## The time range builder -/

theorem isDigit_iff (c : Char) : c.isDigit = true ↔ 48 ≤ c.toNat ∧ c.toNat ≤ 57 := by
  simp only [Char.isDigit, Bool.and_eq_true, decide_eq_true_eq, ge_iff_le]
  rfl

theorem digitChar_isDigit : ∀ k < 10, (digitChar k).isDigit = true := by decide

theorem digitChar_value : ∀ k < 10, (digitChar k).toNat - 48 = k := by decide

theorem digitChar_ne_dash : ∀ k < 10, digitChar k ≠ '-' := by decide

theorem digitChar_not_space : ∀ k < 10, isJSWhiteSpace (digitChar k) = false := by decide

theorem twoDigits_pad (a b : Nat) (ha : a < 10) (hb : b < 10) :
    twoDigits (digitChar a) (digitChar b) = some (a * 10 + b) := by
  simp [twoDigits, digitChar_isDigit a ha, digitChar_isDigit b hb, digitChar_value a ha,
    digitChar_value b hb]

theorem jsTrim_time (a b c d : Nat) (ha : a < 10) (hd : d < 10) :
    jsTrim [digitChar a, digitChar b, ':', digitChar c, digitChar d]
      = [digitChar a, digitChar b, ':', digitChar c, digitChar d] := by
  simp [jsTrim, List.dropWhile, digitChar_not_space a ha, digitChar_not_space d hd]

theorem parseLocalDateTime_written (y m d hh mm : Nat) (hy : y ≤ 9999)
    (hm : 1 ≤ m ∧ m ≤ 12) (hd : 1 ≤ d ∧ d ≤ daysInMonth y m) (hh24 : hh ≤ 23)
    (hmm : mm ≤ 59) :
    parseLocalDateTime ((isoDate y m d).data ++ 'T' :: (pad2 hh ++ ':' :: pad2 mm)
      ++ ":00".data) = some (localTimeValue y m d hh mm 0) := by
  have hd31 : d ≤ 31 := by
    have : daysInMonth y m ≤ 31 := by
      unfold daysInMonth; split <;> (try split) <;> omega
    omega
  have e1 : y / 100 / 10 * 10 + y / 100 % 10 = y / 100 := by omega
  have e2 : y % 100 / 10 * 10 + y % 100 % 10 = y % 100 := by omega
  have e3 : y / 100 * 100 + y % 100 = y := by omega
  have e4 : m / 10 * 10 + m % 10 = m := by omega
  have e5 : d / 10 * 10 + d % 10 = d := by omega
  have e6 : hh / 10 * 10 + hh % 10 = hh := by omega
  have e7 : mm / 10 * 10 + mm % 10 = mm := by omega
  have z : twoDigits '0' '0' = some 0 := by decide
  simp only [isoDate, pad2, List.cons_append, List.nil_append, List.append_nil,
    parseLocalDateTime, fourDigits, String.data, List.append_assoc]
  rw [twoDigits_pad (y / 100 / 10) (y / 100 % 10) (by omega) (by omega),
    twoDigits_pad (y % 100 / 10) (y % 100 % 10) (by omega) (by omega),
    twoDigits_pad (m / 10) (m % 10) (by omega) (by omega),
    twoDigits_pad (d / 10) (d % 10) (by omega) (by omega),
    twoDigits_pad (hh / 10) (hh % 10) (by omega) (by omega),
    twoDigits_pad (mm / 10) (mm % 10) (by omega) (by omega), z]
  simp only [e1, e2, e3, e4, e5, e6, e7]
  simp [hm.1, hm.2, hd.1, hd.2, hh24, hmm]


theorem jsSplit_time_range (h1 m1 h2 m2 : Nat) (hh1 : h1 ≤ 23) (hm1 : m1 ≤ 59)
    (hh2 : h2 ≤ 23) (hm2 : m2 ≤ 59) :
    jsSplit '-' (timeRangeString h1 m1 h2 m2).data =
      [pad2 h1 ++ ':' :: pad2 m1, pad2 h2 ++ ':' :: pad2 m2] := by
  simp [timeRangeString, pad2, jsSplit,
    digitChar_ne_dash (h1 / 10) (by omega), digitChar_ne_dash (h1 % 10) (by omega),
    digitChar_ne_dash (m1 / 10) (by omega), digitChar_ne_dash (m1 % 10) (by omega),
    digitChar_ne_dash (h2 / 10) (by omega), digitChar_ne_dash (h2 % 10) (by omega),
    digitChar_ne_dash (m2 / 10) (by omega), digitChar_ne_dash (m2 % 10) (by omega)]

theorem localTimeValue_lt (y m d h1 m1 h2 m2 : Nat) :
    localTimeValue y m d h1 m1 0 < localTimeValue y m d h2 m2 0 ↔
      h1 * 60 + m1 < h2 * 60 + m2 := by
  unfold localTimeValue
  constructor <;> intro h <;> omega

/-- C6, as amended. For every valid calendar date and every well-formed
`HH:MM-HH:MM` range, `buildDateTime` returns two valid dates: the local
date-times of that day at the start time and at the end time.  They come in
the order of the two times of day (for a time zone whose local-to-UTC
conversion preserves order): start is earlier than end exactly when the range
is written with the earlier time first. -/
theorem buildDateTime_well_formed (host : Host) (y m d h1 m1 h2 m2 : Nat) (hy : y ≤ 9999)
    (hm : 1 ≤ m ∧ m ≤ 12) (hd : 1 ≤ d ∧ d ≤ daysInMonth y m)
    (hh1 : h1 ≤ 23) (hm1 : m1 ≤ 59) (hh2 : h2 ≤ 23) (hm2 : m2 ≤ 59) :
    buildDateTime host (isoDate y m d) (some (timeRangeString h1 m1 h2 m2)) =
      ⟨some ⟨some (host.localToUTC (localTimeValue y m d h1 m1 0))⟩,
       some ⟨some (host.localToUTC (localTimeValue y m d h2 m2 0))⟩⟩ ∧
    (StrictMono host.localToUTC →
      (host.localToUTC (localTimeValue y m d h1 m1 0)
          < host.localToUTC (localTimeValue y m d h2 m2 0) ↔
        h1 * 60 + m1 < h2 * 60 + m2)) := by
  constructor
  · have hsep : (timeRangeString h1 m1 h2 m2).data.contains '-' = true := by
      simp [timeRangeString]
    have t1 := jsTrim_time (h1 / 10) (h1 % 10) (m1 / 10) (m1 % 10) (by omega) (by omega)
    have t2 := jsTrim_time (h2 / 10) (h2 % 10) (m2 / 10) (m2 % 10) (by omega) (by omega)
    have p1 := parseLocalDateTime_written y m d h1 m1 hy hm hd hh1 hm1
    have p2 := parseLocalDateTime_written y m d h2 m2 hy hm hd hh2 hm2
    simp only [pad2, List.cons_append, List.nil_append] at t1 t2
    simp only [buildDateTime, hsep, Bool.not_true, Bool.false_eq_true, if_false,
      jsSplit_time_range h1 m1 h2 m2 hh1 hm1 hh2 hm2, List.map, List.get?, templatePart,
      pad2, List.cons_append, List.nil_append, t1, t2, newDate]
    simp only [pad2, List.cons_append, List.nil_append, List.append_assoc] at p1 p2
    simp only [List.append_assoc, List.cons_append, List.nil_append, p1, p2]
  · intro hmono
    rw [hmono.lt_iff_lt]
    exact localTimeValue_lt y m d h1 m1 h2 m2

set_option maxRecDepth 100000 in
theorem buildDateTime_well_formed_witness :
    buildDateTime utcHost (isoDate 2025 3 10) (some (timeRangeString 9 0 10 30)) =
      ⟨some ⟨some (utcHost.localToUTC (localTimeValue 2025 3 10 9 0 0))⟩,
       some ⟨some (utcHost.localToUTC (localTimeValue 2025 3 10 10 30 0))⟩⟩ ∧
    (utcHost.localToUTC (localTimeValue 2025 3 10 9 0 0)
        < utcHost.localToUTC (localTimeValue 2025 3 10 10 30 0) ↔
      9 * 60 + 0 < 10 * 60 + 30) :=
  ⟨(buildDateTime_well_formed utcHost 2025 3 10 9 0 10 30 (by decide) (by decide)
      (by decide) (by decide) (by decide) (by decide) (by decide)).1,
   (buildDateTime_well_formed utcHost 2025 3 10 9 0 10 30 (by decide) (by decide)
      (by decide) (by decide) (by decide) (by decide) (by decide)).2 (fun _ _ h => h)⟩

set_option maxRecDepth 100000 in
/-- C6, counterexample. On the valid date 2025-03-10 the well-formed range
`10:30-09:00` gives a start that is later than the end. -/
theorem buildDateTime_start_after_end :
    isoDate 2025 3 10 = "2025-03-10" ∧ timeRangeString 10 30 9 0 = "10:30-09:00" ∧
    buildDateTime utcHost "2025-03-10" (some "10:30-09:00") =
      ⟨some ⟨some 1741602600000⟩, some ⟨some 1741597200000⟩⟩ ∧
    ¬ ((1741602600000 : Int) < 1741597200000) := by
  decide


/-! ## Rounding integers to doubles -/

theorem log2Fuel_pow_le (fuel n : Nat) (hn : 1 ≤ n) : 2 ^ log2Fuel fuel n ≤ n := by
  induction fuel generalizing n with
  | zero => simpa [log2Fuel] using hn
  | succ f ih =>
    unfold log2Fuel
    split
    · simpa using hn
    · have h2 : 1 ≤ n / 2 := by omega
      have := ih (n / 2) h2
      rw [Nat.pow_succ]
      omega

theorem floorLog2_lt (n k : Nat) (hn : 1 ≤ n) (h : n < 2 ^ k) : floorLog2 n < k := by
  have h1 := log2Fuel_pow_le n n hn
  have h2 : 2 ^ floorLog2 n < 2 ^ k := lt_of_le_of_lt h1 h
  exact (Nat.pow_lt_pow_iff_right (by norm_num)).1 h2

theorem reduceDyadic_mul_pow (n k : Nat) : reduceDyadic (n * 2 ^ k) k = (n, 1) := by
  induction k with
  | zero => simp [reduceDyadic]
  | succ k ih =>
    have e : n * 2 ^ (k + 1) = n * 2 ^ k * 2 := by rw [Nat.pow_succ, Nat.mul_assoc]
    have h1 : n * 2 ^ (k + 1) % 2 = 0 := by rw [e]; exact Nat.mul_mod_left _ _
    have h2 : n * 2 ^ (k + 1) / 2 = n * 2 ^ k := by
      rw [e]; exact Nat.mul_div_cancel _ (by norm_num)
    simp only [reduceDyadic, h1, h2, ih, if_true]

theorem roundHalfEven_one (n : Nat) : roundHalfEven n 1 = n := by
  simp [roundHalfEven, Nat.mod_one]

theorem roundWithExponent_nat (n : Nat) (e : Int) :
    roundWithExponent n 1 e = .posInf ∨
      ∃ k : Nat, roundWithExponent n 1 e = .finite (k : Int) 1 := by
  unfold roundWithExponent
  by_cases hs : 0 < 52 - max e (-1022)
  · right
    refine ⟨n, ?_⟩
    simp only [hs, if_true, roundHalfEven_one, reduceDyadic_mul_pow]
  · simp only [hs, if_false]
    split
    · left; rfl
    · right; exact ⟨_, rfl⟩

theorem roundToDouble_nat (n : Nat) :
    roundToDouble n 1 = .posInf ∨ ∃ k : Nat, roundToDouble n 1 = .finite (k : Int) 1 := by
  unfold roundToDouble
  split
  · right; exact ⟨0, rfl⟩
  · exact roundWithExponent_nat n _

theorem binaryExponent_one_le (n : Nat) : binaryExponent n 1 ≤ (floorLog2 n : Int) := by
  unfold binaryExponent
  dsimp only
  split <;> omega

set_option exponentiation.threshold 2000 in
theorem roundWithExponent_exact (n : Nat) (e : Int) (he : e ≤ 52) (hn : n < 2 ^ 53) :
    roundWithExponent n 1 e = .finite (n : Int) 1 := by
  unfold roundWithExponent
  by_cases hs : 0 < 52 - max e (-1022)
  · simp only [hs, if_true, roundHalfEven_one, reduceDyadic_mul_pow]
  · have hz : (-(52 - max e (-1022))).toNat = 0 := by omega
    have hbig : (2 : Nat) ^ 53 ≤ 2 ^ 1024 :=
      Nat.pow_le_pow_right (by decide) (by decide)
    have hlt : ¬ (2 ^ 1024 ≤ n) := Nat.not_le.mpr (lt_of_lt_of_le hn hbig)
    simp only [hs, if_false, hz, Nat.pow_zero, Nat.mul_one, roundHalfEven_one, hlt]

theorem roundToDouble_exact (n : Nat) (h : n < 2 ^ 53) :
    roundToDouble n 1 = .finite (n : Int) 1 := by
  unfold roundToDouble
  split
  · next h0 => rw [h0]; rfl
  · next h0 =>
    have hlog := floorLog2_lt n 53 (by omega) h
    have hle := binaryExponent_one_le n
    exact roundWithExponent_exact n _ (by omega) h


/-! ## Digit runs as numbers -/

theorem isDigit_not_space (c : Char) (h : c.isDigit = true) : isJSWhiteSpace c = false := by
  rw [isDigit_iff] at h
  simp only [isJSWhiteSpace, Bool.or_eq_false_iff, Bool.and_eq_false_iff,
    decide_eq_false_iff_not]
  omega

theorem dropWhile_of_all_false {α : Type} (p : α → Bool) (l : List α)
    (h : ∀ c ∈ l, p c = false) : l.dropWhile p = l := by
  cases l with
  | nil => rfl
  | cons c cs => simp [List.dropWhile, h c (List.mem_cons_self _ _)]

theorem jsTrim_digits (ds : List Char) (h : ∀ c ∈ ds, c.isDigit = true) : jsTrim ds = ds := by
  unfold jsTrim
  rw [dropWhile_of_all_false _ ds (fun c hc => isDigit_not_space c (h c hc)),
    dropWhile_of_all_false _ ds.reverse
      (fun c hc => isDigit_not_space c (h c (List.mem_reverse.1 hc))),
    List.reverse_reverse]

theorem takeSign_digits (c : Char) (cs : List Char) (h : c.isDigit = true) :
    takeSign (c :: cs) = (false, c :: cs) := by
  unfold takeSign
  split
  · next heq => cases heq; exact absurd h (by decide)
  · next heq => cases heq; exact absurd h (by decide)
  · rfl

theorem parseUnsignedDecimal_digits (ds : List Char) (hne : ds ≠ [])
    (h : ∀ c ∈ ds, c.isDigit = true) :
    parseUnsignedDecimal ds = roundToDouble (decimalValue ds) 1 := by
  have ht : ds.takeWhile Char.isDigit = ds := List.takeWhile_eq_self_iff.2 h
  have hd : ds.dropWhile Char.isDigit = [] := List.dropWhile_eq_nil_iff.2 h
  simp [parseUnsignedDecimal, ht, hd, hne, parseExponent]

theorem parseNumericLiteral_digits (ds : List Char) (hne : ds ≠ [])
    (h : ∀ c ∈ ds, c.isDigit = true) :
    parseNumericLiteral ds = roundToDouble (decimalValue ds) 1 := by
  have hx : ∀ c : Char, c.isDigit = false → ∀ a rest, ds ≠ a :: c :: rest := by
    intro c hc a rest heq
    have := h c (by rw [heq]; simp)
    rw [hc] at this
    cases this
  cases ds with
  | nil => exact absurd rfl hne
  | cons c cs =>
    have hc : c.isDigit = true := h c (List.mem_cons_self _ _)
    have hI : c :: cs ≠ "Infinity".data := by
      intro heq
      have h1 : c = 'I' := by
        have := congrArg List.head? heq
        simpa using this
      rw [h1] at hc
      revert hc
      decide
    unfold parseNumericLiteral
    split
    · next heq => exact absurd heq (hx 'x' (by decide) _ _)
    · next heq => exact absurd heq (hx 'X' (by decide) _ _)
    · next heq => exact absurd heq (hx 'o' (by decide) _ _)
    · next heq => exact absurd heq (hx 'O' (by decide) _ _)
    · next heq => exact absurd heq (hx 'b' (by decide) _ _)
    · next heq => exact absurd heq (hx 'B' (by decide) _ _)
    · rw [takeSign_digits c cs hc]
      simp only [hI, if_false, Bool.false_eq_true]
      exact parseUnsignedDecimal_digits (c :: cs) hne h

theorem stringToNumber_digits (ds : List Char) (hne : ds ≠ [])
    (h : ∀ c ∈ ds, c.isDigit = true) :
    stringToNumber ds = roundToDouble (decimalValue ds) 1 := by
  unfold stringToNumber
  simp only [jsTrim_digits ds h, hne, if_false]
  exact parseNumericLiteral_digits ds hne h

theorem firstDigitRun_digits (s ds : List Char) (h : firstDigitRun s = some ds) :
    ds ≠ [] ∧ ∀ c ∈ ds, c.isDigit = true := by
  induction s with
  | nil => simp [firstDigitRun] at h
  | cons c cs ih =>
    unfold firstDigitRun at h
    split at h
    · next hc =>
      cases h
      refine ⟨by simp, fun x hx => ?_⟩
      rcases List.mem_cons.1 hx with rfl | hx
      · exact hc
      · exact (List.mem_takeWhile_imp hx)
    · exact ih h

theorem firstDigitRun_none (s : List Char) (h : ∀ c ∈ s, c.isDigit = false) :
    firstDigitRun s = none := by
  induction s with
  | nil => rfl
  | cons c cs ih =>
    have hc := h c (List.mem_cons_self _ _)
    simp only [firstDigitRun, hc, Bool.false_eq_true, if_false]
    exact ih (fun x hx => h x (List.mem_cons_of_mem _ hx))


/-! ## Strings without digits -/

theorem takeWhile_of_no_digit (s : List Char) (h : ∀ c ∈ s, c.isDigit = false) :
    s.takeWhile Char.isDigit = [] := by
  cases s with
  | nil => rfl
  | cons c cs => simp [List.takeWhile, h c (List.mem_cons_self _ _)]

theorem parseUnsignedDecimal_no_digit (s : List Char) (h : ∀ c ∈ s, c.isDigit = false) :
    parseUnsignedDecimal s = .nan := by
  have ht := takeWhile_of_no_digit s h
  have hd : s.dropWhile Char.isDigit = s := dropWhile_of_all_false _ s h
  unfold parseUnsignedDecimal
  simp only [ht, hd]
  have hf : (match s with
      | '.' :: r => r.takeWhile Char.isDigit
      | _ => []) = [] := by
    split
    · next r =>
      exact takeWhile_of_no_digit r (fun c hc => h c (List.mem_cons_of_mem _ hc))
    · rfl
  simp only [hf, and_self, if_true]

theorem takeSign_subset (s : List Char) : ∀ c ∈ (takeSign s).2, c ∈ s := by
  intro c hc
  unfold takeSign at hc
  split at hc
  · exact List.mem_cons_of_mem _ hc
  · exact List.mem_cons_of_mem _ hc
  · exact hc

theorem parseNumericLiteral_no_digit (s : List Char) (h : ∀ c ∈ s, c.isDigit = false) :
    (parseNumericLiteral s).isFinite = false := by
  have hbody := parseUnsignedDecimal_no_digit (takeSign s).2
    (fun c hc => h c (takeSign_subset s c hc))
  unfold parseNumericLiteral
  split
  · exact absurd (h '0' (by simp)) (by decide)
  · exact absurd (h '0' (by simp)) (by decide)
  · exact absurd (h '0' (by simp)) (by decide)
  · exact absurd (h '0' (by simp)) (by decide)
  · exact absurd (h '0' (by simp)) (by decide)
  · exact absurd (h '0' (by simp)) (by decide)
  · cases hsign : takeSign s with
    | mk negative body =>
      rw [hsign] at hbody
      simp only [hbody]
      cases negative <;> by_cases hI : body = "Infinity".data <;>
        simp [hI, JSNumber.neg, JSNumber.isFinite]

theorem jsTrim_subset (s : List Char) : ∀ c ∈ jsTrim s, c ∈ s := by
  intro c hc
  unfold jsTrim at hc
  have h1 := List.dropWhile_subset isJSWhiteSpace (List.mem_reverse.1 hc)
  exact List.dropWhile_subset isJSWhiteSpace (List.mem_reverse.1 h1)

theorem stringToNumber_no_digit (s : List Char) (h : ∀ c ∈ s, c.isDigit = false)
    (hne : jsTrim s ≠ []) : (stringToNumber s).isFinite = false := by
  unfold stringToNumber
  simp only [hne, if_false]
  exact parseNumericLiteral_no_digit _ (fun c hc => h c (jsTrim_subset s c hc))

theorem or_empty_toStr (host : Host) (s : String) :
    ((JSValue.string s).or (.string "")).toStr host = s := by
  unfold JSValue.or
  split
  · rfl
  · next h =>
    have : s = "" := by simpa [JSValue.truthy] using h
    rw [this]; rfl

/-! ## The identifier normalizer -/

/-- C8, as amended. For every input value, `toNumericId` returns either a
finite number or `null`, never `NaN` or an infinity.  It returns the
whole-value coercion `Number(value)` whenever that is finite, whatever its
sign and whether or not it is an integer; only a result of the digit-run
fallback is sure to be a non-negative integer. -/
theorem toNumericId_finite_or_null (host : Host) (value : JSValue) :
    (toNumericId host value = none ∨
      ∃ n d, toNumericId host value = some (.finite n d)) ∧
    (value.toNumber.isFinite = true → toNumericId host value = some value.toNumber) ∧
    (value.toNumber.isFinite = false →
      toNumericId host value = none ∨
      ∃ k : Nat, toNumericId host value = some (.finite (k : Int) 1)) := by
  have hfallback : value.toNumber.isFinite = false →
      toNumericId host value = none ∨
      ∃ k : Nat, toNumericId host value = some (.finite (k : Int) 1) := by
    intro hnum
    unfold toNumericId
    simp only [hnum, Bool.false_eq_true, if_false]
    split
    · next digits hrun =>
      obtain ⟨hne, hall⟩ := firstDigitRun_digits _ _ hrun
      rw [stringToNumber_digits digits hne hall]
      rcases roundToDouble_nat (decimalValue digits) with hinf | ⟨k, hk⟩
      · left; simp [hinf, JSNumber.isFinite]
      · right; exact ⟨k, by simp [hk, JSNumber.isFinite]⟩
    · left; rfl
  have hdirect : value.toNumber.isFinite = true →
      toNumericId host value = some value.toNumber := by
    intro hnum
    simp [toNumericId, hnum]
  refine ⟨?_, hdirect, hfallback⟩
  cases hnum : value.toNumber.isFinite
  · rcases hfallback hnum with h | ⟨k, hk⟩
    · exact Or.inl h
    · exact Or.inr ⟨_, _, hk⟩
  · right
    rw [hdirect hnum]
    cases hv : value.toNumber with
    | finite n d => exact ⟨n, d, rfl⟩
    | nan => rw [hv] at hnum; cases hnum
    | posInf => rw [hv] at hnum; cases hnum
    | negInf => rw [hv] at hnum; cases hnum

set_option maxRecDepth 100000 in
theorem toNumericId_finite_or_null_witness :
    (JSValue.string "court-42").toNumber.isFinite = false ∧
    (toNumericId utcHost (.string "court-42") = none ∨
      ∃ k : Nat, toNumericId utcHost (.string "court-42") = some (.finite (k : Int) 1)) :=
  ⟨by decide,
   (toNumericId_finite_or_null utcHost (.string "court-42")).2.2 (by decide)⟩

set_option maxRecDepth 100000 in
/-- C8, counterexample. The function `toNumericId` returns zero for the empty
string and for `null`, a negative number for `"-5"`, and a non-integer for
`"1.5"`. -/
theorem toNumericId_not_positive_integer :
    toNumericId utcHost (.string "") = some (.finite 0 1) ∧
    toNumericId utcHost .null = some (.finite 0 1) ∧
    toNumericId utcHost (.string "-5") = some (.finite (-5) 1) ∧
    toNumericId utcHost (.string "1.5") = some (.finite 3 2) := by
  decide

set_option exponentiation.threshold 2000 in
/-- C9, as amended. For every finite number (every integer among them)
`toNumericId` returns it unchanged; for every string that is a run of decimal
digits of value below `2 ^ 53` it returns that integer; for every string whose
whole-value coercion is not finite and whose first digit run has a value below
`2 ^ 53` it returns the integer of that first run (`"court-42"` gives 42); and
for every string with no digit that is not empty after trimming, and for
`undefined`, it returns `null` (`"abc"`). -/
theorem toNumericId_digit_runs (host : Host) :
    (∀ x : JSNumber, x.isFinite = true → toNumericId host (.number x) = some x) ∧
    (∀ ds : List Char, ds ≠ [] → (∀ c ∈ ds, c.isDigit = true) → decimalValue ds < 2 ^ 53 →
      toNumericId host (.string (String.mk ds)) = some (.finite (decimalValue ds) 1)) ∧
    (∀ (s : String) (ds : List Char), (stringToNumber s.data).isFinite = false →
      firstDigitRun s.data = some ds → decimalValue ds < 2 ^ 53 →
      toNumericId host (.string s) = some (.finite (decimalValue ds) 1)) ∧
    (∀ s : String, (∀ c ∈ s.data, c.isDigit = false) → jsTrim s.data ≠ [] →
      toNumericId host (.string s) = none) ∧
    toNumericId host .undefined = none ∧
    toNumericId host (.string "court-42") = some (.finite 42 1) ∧
    toNumericId host (.string "abc") = none := by
  have hrun : ∀ (s : String) (ds : List Char), (stringToNumber s.data).isFinite = false →
      firstDigitRun s.data = some ds → decimalValue ds < 2 ^ 53 →
      toNumericId host (.string s) = some (.finite (decimalValue ds) 1) := by
    intro s ds hnum hfirst hval
    obtain ⟨hne, hall⟩ := firstDigitRun_digits _ _ hfirst
    unfold toNumericId
    simp only [JSValue.toNumber, hnum, Bool.false_eq_true, if_false, or_empty_toStr, hfirst,
      stringToNumber_digits ds hne hall, roundToDouble_exact _ hval]
    rfl
  have hnone : ∀ s : String, (∀ c ∈ s.data, c.isDigit = false) → jsTrim s.data ≠ [] →
      toNumericId host (.string s) = none := by
    intro s hno hne
    unfold toNumericId
    simp only [JSValue.toNumber, stringToNumber_no_digit s.data hno hne, Bool.false_eq_true,
      if_false, or_empty_toStr, firstDigitRun_none s.data hno]
  refine ⟨?_, ?_, hrun, hnone, toNumericId_undefined host, ?_, ?_⟩
  · intro x hx
    simp [toNumericId, JSValue.toNumber, hx]
  · intro ds hne hall hval
    unfold toNumericId
    simp only [JSValue.toNumber, stringToNumber_digits ds hne hall,
      roundToDouble_exact _ hval]
    rfl
  · exact hrun "court-42" "42".data (by decide) (by decide) (by decide)
  · exact hnone "abc" (by decide) (by decide)

set_option maxRecDepth 100000 in
set_option exponentiation.threshold 2000 in
theorem toNumericId_digit_runs_witness :
    toNumericId utcHost (.string (String.mk "0042".data)) = some (.finite 42 1) ∧
    toNumericId utcHost (.string "lapangan 12 (futsal)") = some (.finite 12 1) ∧
    toNumericId utcHost (.string "abc-def") = none :=
  ⟨(toNumericId_digit_runs utcHost).2.1 "0042".data (by decide) (by decide) (by decide),
   (toNumericId_digit_runs utcHost).2.2.1 "lapangan 12 (futsal)" "12".data
     (by decide) (by decide) (by decide),
   (toNumericId_digit_runs utcHost).2.2.2.1 "abc-def" (by decide) (by decide)⟩

set_option maxRecDepth 100000 in
set_option exponentiation.threshold 2000 in
/-- C9, counterexample. The empty string and the blank string contain no
digit, yet `toNumericId` returns 0 for them, not `null`; the strings `".5"` and
`"-5"` contain exactly one run of digits, `5`, yet the results are one half and
minus five; and the only run of digits of `"id-9007199254740993"` is returned
as 9007199254740992. -/
theorem toNumericId_digit_run_failures :
    toNumericId utcHost (.string "") = some (.finite 0 1) ∧
    toNumericId utcHost (.string "  ") = some (.finite 0 1) ∧
    toNumericId utcHost (.string ".5") = some (.finite 1 2) ∧
    toNumericId utcHost (.string "-5") = some (.finite (-5) 1) ∧
    toNumericId utcHost (.string "id-9007199254740993")
      = some (.finite 9007199254740992 1) := by
  decide

end Sportfy
